import Mathlib

/-!
Shallow embedding of `src/evaluator/part1.py` (the heuristic-search evaluation
harness): the Turn Calculator (`calculate_total_turns`), the Resource Monitor
(peak-memory folding of `update_memory`), the Search Runner / Outcome Validator
(`runAgent`, one iteration of the agent loop in `execute_heuristic_search`),
the Scorer (tier gates of lines 154-175), and the evaluation entry point
(`execute_heuristic_search`).

Modelling conventions:
  * Python machine floats for time and memory are modelled as exact rationals;
    `round(x * 100) / 100` is modelled by `round2` (ties between the two
    rounding modes never matter for any statement below).
  * Turn counts returned by `board.get_move_turns` are naturals;
    `float('inf')` outcomes are `⊤ : WithTop ℕ`.
  * The board is an opaque collaborator, modelled per its contract: loading a
    state, pawn locations, per-move turn costs and the game-end flag are total;
    batch replay (`simulate_action` followed by `is_game_end`) either succeeds
    with the game-end flag or raises a distinguishable `InvalidMove` /
    `InvalidFence` error.  Since `set_to_state(initial_state, is_initial=True)`
    precedes every use, board queries are pure functions of the initial state.
  * Python exceptions are threaded explicitly: a step that may raise returns
    `Except PyErr _`; a bare `except:` catches every `PyErr`, while
    `except (InvalidMove, InvalidFence):` catches only those two constructors.
  * `load_ta_agent` lives in `evaluator/util.py`, outside the sources at hand;
    per the spec the reference agent is optional, so it is modelled by the
    boolean `taAvailable` ("`load_ta_agent` returned a non-None agent").
-/

set_option autoImplicit false

namespace Part1

/-- Grid coordinates (`square.location` tuples). -/
abbrev Pos := ℤ × ℤ

/-- The `Action` hierarchy of the `action` module: a `MOVE` carries the acting
player and the target cell; the fence variant is opaque to the evaluator
beyond being an `Action` instance. -/
inductive GameAction where
  | move (player : ℕ) (position : Pos)
  | fence (player : ℕ) (position : Pos) (horizontal : Bool)
  deriving DecidableEq

/-- A Python value appearing as an element of a returned solution list:
either a genuine `Action` instance or some other object (`other`), which the
shape assertion rejects but `isinstance(action, MOVE)` silently skips. -/
inductive PyVal where
  | action (a : GameAction)
  | other (tag : ℕ)
  deriving DecidableEq

/-- Whether a list element is an `Action` instance (`isinstance(s, Action)`). -/
def PyVal.isAction : PyVal → Bool
  | .action _ => true
  | .other _ => false

/-- The Python value bound to `solution`: `None` (the initial value, kept when
the search raises), a list, or a non-list return value.  For a non-list the
facts the harness can observe are recorded: what iterating it yields
(`elems`; `Option.none` when the value is not iterable, in which case the
`for` loop and the `*solution` unpacking raise `TypeError`) and its
truthiness (`if not solution` — independent of `elems`, since a custom
object may define both on its own). -/
inductive PyObj where
  | none
  | list (l : List PyVal)
  | nonList (elems : Option (List PyVal)) (truthy : Bool) (tag : ℕ)
  deriving DecidableEq

/-- Python exceptions that matter to the harness's `except` clauses. -/
inductive PyErr where
  /-- `agents['ta']` lookup failure when no TA agent was loaded. -/
  | keyError
  /-- iterating or unpacking a non-iterable, e.g. `for action in 42`. -/
  | typeError
  /-- `pyquoridor.exceptions.InvalidMove` raised by `simulate_action`. -/
  | invalidMove
  /-- `pyquoridor.exceptions.InvalidFence` raised by `simulate_action`. -/
  | invalidFence
  deriving DecidableEq

/-- The distinguishable rule-violation errors the board contract allows
`simulate_action` to raise. -/
inductive BoardErr where
  | invalidMove
  | invalidFence
  deriving DecidableEq

/-- The corresponding Python exception. -/
def BoardErr.toPyErr : BoardErr → PyErr
  | .invalidMove => .invalidMove
  | .invalidFence => .invalidFence

/-- The opaque board collaborator, as a pure function of the initial state it
is always reset to (`set_to_state(initial_state, is_initial=True)`):
`pawnLoc` is `board._board.pawns[player].square.location`, `get_move_turns`
the per-move turn cost, and `simulate` the batch replay
`simulate_action(None, *solution, problem_type=1)` followed by
`is_game_end()`, returning the game-end flag or — per the collaborator
contract — one of the two distinguishable rule-violation errors. -/
structure GameBoard where
  pawnLoc : ℕ → Pos
  get_move_turns : Pos → Pos → ℕ
  simulate : List PyVal → Except BoardErr Bool

/-- Loop body of `calculate_total_turns`: walk the list with the
`current_pos` cursor (`Option Pos`, `none` = Python `None`) and the running
`total_turns` accumulator; only `MOVE` instances add cost and advance the
cursor, and a `none` cursor is seeded from the move's player's pawn. -/
def calcTurns (board : GameBoard) : Option Pos → ℕ → List PyVal → ℕ
  | _, acc, [] => acc
  | cur, acc, PyVal.action (GameAction.move p pos) :: rest =>
      let cpos := cur.getD (board.pawnLoc p)
      calcTurns board (some pos) (acc + board.get_move_turns cpos pos) rest
  | cur, acc, _ :: rest => calcTurns board cur acc rest

/-- `calculate_total_turns(board, solution)` (lines 16-35).  `if not solution`
returns infinity for `None`, the empty list and every falsy value; a
non-empty list is folded by `calcTurns`.  A truthy non-list reaches
`for action in solution`, which walks its elements exactly like a list when
the value is iterable and raises `TypeError` when it is not. -/
def calculate_total_turns (board : GameBoard) : PyObj → Except PyErr (WithTop ℕ)
  | .none => .ok ⊤
  | .list [] => .ok ⊤
  | .list l => .ok (calcTurns board none 0 l : ℕ)
  | .nonList elems truthy _ =>
      if truthy then
        match elems with
        | Option.none => .error .typeError
        | some l => .ok (calcTurns board none 0 l : ℕ)
      else .ok ⊤

/-- The per-move costs `c_i` reported by the board along the cursor walk of a
solution: one entry per `MOVE` instance, in order. -/
def moveCosts (board : GameBoard) : Option Pos → List PyVal → List ℕ
  | _, [] => []
  | cur, PyVal.action (GameAction.move p pos) :: rest =>
      board.get_move_turns (cur.getD (board.pawnLoc p)) pos
        :: moveCosts board (some pos) rest
  | cur, _ :: rest => moveCosts board cur rest

theorem calcTurns_eq_sum (board : GameBoard) :
    ∀ (l : List PyVal) (cur : Option Pos) (acc : ℕ),
      calcTurns board cur acc l = acc + (moveCosts board cur l).sum := by
  intro l
  induction l with
  | nil => intro cur acc; simp [calcTurns, moveCosts]
  | cons a rest ih =>
      intro cur acc
      match a with
      | PyVal.action (GameAction.move p pos) =>
          simp [calcTurns, moveCosts, ih, Nat.add_assoc]
      | PyVal.action (GameAction.fence p pos h) =>
          simp [calcTurns, moveCosts, ih]
      | PyVal.other t =>
          simp [calcTurns, moveCosts, ih]

/-- The failure text stored in a `Performance`.  The source stores strings
(tracebacks and f-strings); downstream only `failure is None` is inspected, so
the texts are modelled as a tagged type recording which message was built. -/
inductive FailureText where
  /-- traceback of an exception raised by `a.heuristic_search(board)`. -/
  | searchError (msg : String)
  /-- traceback of `AssertionError: Solution should be a LIST of actions...`. -/
  | assertNotList
  /-- traceback of `AssertionError: Solution should be a list of ACTIONs...`. -/
  | assertNotActions
  /-- traceback of the `InvalidMove`/`InvalidFence` caught during replay. -/
  | ruleViolation (e : BoardErr)
  /-- `f'Time limit exceeded! {time_delta:.3f} seconds passed!'`. -/
  | timeLimitExceeded (t : ℚ)
  /-- `f'Memory limit exceeded! {memory_usage:.2f} MB used!'`. -/
  | memoryLimitExceeded (m : ℚ)
  deriving DecidableEq

/-- The `Performance` record of `evaluator/util.py` as used here: `search` is
reserved and always `None`. -/
structure Performance where
  failure : Option FailureText
  outcome : WithTop ℕ
  search : Option ℕ
  time : ℚ
  memory : ℚ
  point : ℕ
  deriving DecidableEq

/-- `round(x * 100) / 100`: two-decimal rounding on the exact-rational model
of the float arithmetic. -/
def round2 (x : ℚ) : ℚ := (round (x * 100) : ℤ) / 100

/-- What the call `a.heuristic_search(board)` does: raise, or return a value. -/
inductive SearchResult where
  | raises (msg : String)
  | returns (v : PyObj)
  deriving DecidableEq

/-- One sample taken by the monitor thread: `process.memory_info().rss /
MEGABYTES`, or a sampling failure (swallowed by `update_memory`'s bare
`except: pass`). -/
abbrev MemSample := Except Unit ℚ

/-- `update_memory` applied to one sample: `peak_memory = max(peak_memory,
current)` on success, unchanged on a sampling failure. -/
def update_memory (peak : ℚ) : MemSample → ℚ
  | .ok current => max peak current
  | .error _ => peak

/-- The value of the shared `peak_memory` cell after the monitor thread has
taken `samples`: it starts at `initial_memory` (line `peak_memory =
initial_memory`) and is only ever updated by `update_memory`. -/
def finalPeak (initialMemory : ℚ) (samples : List MemSample) : ℚ :=
  samples.foldl update_memory initialMemory

/-- Observable inputs of one iteration of the agent loop: what the agent's
search call did, the baseline memory read before the attempt, the samples the
monitor thread managed to take, the wall-clock duration of the attempt, and
the board-reported `get_max_memory_usage() / MEGABYTES`. -/
structure RunInput where
  searchResult : SearchResult
  initialMemory : ℚ
  samples : List MemSample
  elapsed : ℚ
  boardMemoryMB : ℚ

/-- Events of the search attempt, for the cleanup-ordering property. -/
inductive Event where
  /-- `monitor_thread.start()`. -/
  | startMonitor
  /-- the call `a.heuristic_search(board)`. -/
  | searchCall
  /-- an assignment `stop_monitoring = True`. -/
  | signalStop
  /-- `monitor_thread.join(timeout=...)`. -/
  | joinMonitor (timeout : ℚ)
  /-- `time_end = time()` after the `try`/`except`/`finally`. -/
  | computeElapsed
  deriving DecidableEq

/-- The event trace of the `try`/`except`/`finally` block (lines 70-107).  If
the search raises, control jumps from the call to `except` and then to the
`finally` (one `stop_monitoring = True`, no join); if it returns, the in-line
stop and the bounded join run, the shape asserts may raise (already after the
join), and the `finally` assigns the stop flag once more. -/
def attemptTrace : SearchResult → List Event
  | .raises _ => [.startMonitor, .searchCall, .signalStop, .computeElapsed]
  | .returns _ =>
      [.startMonitor, .searchCall, .signalStop, .joinMonitor 1, .signalStop,
        .computeElapsed]

/-- `a` occurs in `l` strictly before `b` does. -/
def precedes (a b : Event) (l : List Event) : Bool :=
  a ∈ l && b ∈ l && l.indexOf a < l.indexOf b

/-- The value bound to `solution` when the attempt block finishes: it keeps
its initial `None` when the search raises, and the returned value otherwise
(the shape asserts run after the assignment and do not reset it). -/
def attemptSolution : SearchResult → PyObj
  | .raises _ => .none
  | .returns v => v

/-- The shape-assertion outcome on a returned value:
`assert isinstance(solution, list)` then
`assert all(isinstance(s, Action) for s in solution)`. -/
def shapeFailure : PyObj → Option FailureText
  | .list l => if l.all PyVal.isAction then none else some .assertNotActions
  | _ => some .assertNotList

/-- The value bound to `failure` when the attempt block finishes: the bare
`except:` captures the search exception's traceback, or the failing shape
assertion's traceback; `none` on a clean list of actions. -/
def attemptFailure : SearchResult → Option FailureText
  | .raises msg => some (.searchError msg)
  | .returns v => shapeFailure v

/-- Replay of the solution (lines 131-141): skipped for `None`; otherwise
`calculate_total_turns`, then the batch `simulate_action` over what
`*solution` unpacks to, and `is_game_end`, with
`except (InvalidMove, InvalidFence)` capturing rule violations into
`failure` while `total_turns` keeps its computed value and `is_end` stays
`False`.  An iterable non-list replays its elements exactly like a list; a
non-iterable one raises `TypeError` — inside `calculate_total_turns` when
truthy (the `for` loop), at the `*solution` unpacking when falsy — which the
rule-violation handler does not catch, so it escapes as `.error`.  Returns
`(total_turns, is_end, failure)`. -/
def replayPhase (board : GameBoard) (sol : PyObj) (failure : Option FailureText) :
    Except PyErr (WithTop ℕ × Bool × Option FailureText) :=
  match sol with
  | .none => .ok (⊤, false, failure)
  | .list l =>
      match calculate_total_turns board (.list l) with
      | .error e => .error e
      | .ok tt =>
          match board.simulate l with
          | .ok isEnd => .ok (tt, isEnd, failure)
          | .error e => .ok (tt, false, some (.ruleViolation e))
  | .nonList elems truthy tag =>
      match calculate_total_turns board (.nonList elems truthy tag) with
      | .error e => .error e
      | .ok tt =>
          match elems with
          | Option.none => .error .typeError
          | some l =>
              match board.simulate l with
              | .ok isEnd => .ok (tt, isEnd, failure)
              | .error e => .ok (tt, false, some (.ruleViolation e))

/-- Result of one iteration of the agent loop: `shortCircuit` is the early
`return Performance(...)` of the hard-limit checks, `done` is the
`results[k] = Performance(...)` assignment, and `uncaught` is a Python
exception escaping `execute_heuristic_search`. -/
inductive RunResult where
  | shortCircuit (p : Performance)
  | done (p : Performance)
  | uncaught (e : PyErr)
  deriving DecidableEq

/-- `time_delta = round((time_end - time_start) * 100) / 100` (line 106). -/
def time_delta (inp : RunInput) : ℚ := round2 inp.elapsed

/-- `memory_usage = round(max(board_memory, peak_memory - initial_memory) *
100) / 100` (lines 109-110), with `peak_memory` the final value of the
monitor's shared cell. -/
def memory_usage (inp : RunInput) : ℚ :=
  round2 (max inp.boardMemoryMB
    (finalPeak inp.initialMemory inp.samples - inp.initialMemory))

/-- One iteration of the `for k in ['ta', 'agent']` loop (lines 54-149) for
an already-looked-up agent: run the search attempt under the monitor, compute
`time_delta` and `memory_usage`, apply the two hard-limit checks (candidate
only, each limit enforced only when positive — `time_delta > HARD_TIME_LIMIT
> 0` is the Python chained comparison), then validate/replay the solution and
build the per-run `Performance`. -/
def runAgent (timeLimit memoryLimit : ℚ) (board : GameBoard)
    (isCandidate : Bool) (inp : RunInput) : RunResult :=
  let sol := attemptSolution inp.searchResult
  let failure := attemptFailure inp.searchResult
  if isCandidate = true ∧ timeLimit < time_delta inp ∧ 0 < timeLimit then
    .shortCircuit
      { failure := some (.timeLimitExceeded (time_delta inp)), outcome := ⊤,
        search := none, time := time_delta inp, memory := memory_usage inp,
        point := 1 }
  else if isCandidate = true ∧ memoryLimit < memory_usage inp ∧ 0 < memoryLimit then
    .shortCircuit
      { failure := some (.memoryLimitExceeded (memory_usage inp)), outcome := ⊤,
        search := none, time := time_delta inp, memory := memory_usage inp,
        point := 1 }
  else
    match replayPhase board sol failure with
    | .error e => .uncaught e
    | .ok (total_turns, is_end, failure2) =>
        .done
          { failure := failure2,
            outcome := if sol = PyObj.none then ⊤ else total_turns,
            search := none, time := time_delta inp, memory := memory_usage inp,
            point := 1 + (if is_end then 1 else 0) }

/-- `is_beating_ta_outcome` (lines 156, 158-160): initialized `True` and
overwritten only when `'ta' in results`, by the chained comparison
`(ta.outcome >= res.outcome > 0) or (ta.outcome == res.outcome == 0)`. -/
def beatsTaOutcome (ta : Option Performance) (res : Performance) : Bool :=
  match ta with
  | Option.none => true
  | some t =>
      (decide (res.outcome ≤ t.outcome) && decide (0 < res.outcome))
        || (decide (t.outcome = res.outcome) && decide (res.outcome = 0))

/-- `is_beating_ta_time` (lines 157, 161): initialized `False` and overwritten
only when `'ta' in results`, by `ta.time >= res.time`. -/
def beatsTaTime (ta : Option Performance) (res : Performance) : Bool :=
  match ta with
  | Option.none => false
  | some t => decide (res.time ≤ t.time)

/-- `is_beating_ta_memory` (lines 157, 162): initialized `False` and
overwritten only when `'ta' in results`, by `ta.memory >= res.memory`. -/
def beatsTaMemory (ta : Option Performance) (res : Performance) : Bool :=
  match ta with
  | Option.none => false
  | some t => decide (res.memory ≤ t.memory)

/-- `is_basic_stage`: no failure, the per-run point exceeded 1 (the game
ended), and the outcome comparison holds. -/
def basicStage (ta : Option Performance) (res : Performance) : Bool :=
  res.failure.isNone && decide (1 < res.point) && beatsTaOutcome ta res

/-- `is_intermediate_stage`: Basic and `res.memory <= 1`. -/
def intermediateStage (ta : Option Performance) (res : Performance) : Bool :=
  basicStage ta res && decide (res.memory ≤ 1)

/-- `is_advanced_stage`: Intermediate and the time comparison. -/
def advancedStage (ta : Option Performance) (res : Performance) : Bool :=
  intermediateStage ta res && beatsTaTime ta res

/-- `is_challenge_stage`: Advanced and the memory comparison. -/
def challengeStage (ta : Option Performance) (res : Performance) : Bool :=
  advancedStage ta res && beatsTaMemory ta res

/-- The final `Performance` built by the Scorer (lines 154-175): the
candidate's own fields, with `point = 1 + int(is_basic_stage) +
int(is_intermediate_stage) + int(is_advanced_stage) + int(is_challenge_stage)`.
`ta` is `results['ta']` when present (`'ta' in results`), else `none`. -/
def scorer (ta : Option Performance) (res : Performance) : Performance :=
  { failure := res.failure, outcome := res.outcome, search := res.search,
    time := res.time, memory := res.memory,
    point := 1 + (basicStage ta res).toNat + (intermediateStage ta res).toNat
      + (advancedStage ta res).toNat + (challengeStage ta res).toNat }

/-- Inputs of a whole evaluation: whether `load_ta_agent(board)` produced an
agent (modelled from the spec — `util.py` is not among the sources — where
the reference agent is optional), and the observable behaviour of each
agent's run. -/
structure EvalInput where
  taAvailable : Bool
  taRun : RunInput
  agentRun : RunInput

/-- `execute_heuristic_search` (lines 37-176).  `agents` holds `'agent'`
always and `'ta'` only when `load_ta_agent` returned one; the loop
`for k in ['ta', 'agent']` then evaluates `agents['ta']` unconditionally, so
when no TA agent was loaded the lookup raises `KeyError` before any run.
Otherwise the TA run and the candidate run execute in order (an early
`return` of a hard-limit check, possible only for the candidate, yields that
`Performance` directly; an uncaught replay error escapes), and the Scorer
combines the two recorded results. -/
def execute_heuristic_search (timeLimit memoryLimit : ℚ) (board : GameBoard)
    (inp : EvalInput) : Except PyErr Performance :=
  if inp.taAvailable = false then .error .keyError
  else
    match runAgent timeLimit memoryLimit board false inp.taRun with
    | .uncaught e => .error e
    | .shortCircuit p => .ok p
    | .done taPerf =>
        match runAgent timeLimit memoryLimit board true inp.agentRun with
        | .uncaught e => .error e
        | .shortCircuit p => .ok p
        | .done res => .ok (scorer (some taPerf) res)

/-! Concrete fixtures used by witnesses and counterexamples. -/

/-- A concrete board: both pawns at the origin, Manhattan-distance move
costs, and a replay that always succeeds with the game ended. -/
def cb : GameBoard :=
  { pawnLoc := fun _ => (0, 0),
    get_move_turns := fun p q => (q.1 - p.1).natAbs + (q.2 - p.2).natAbs,
    simulate := fun _ => .ok true }

/-- Like `cb`, but replay reports the game not ended. -/
def cbOk : GameBoard := { cb with simulate := fun _ => .ok false }

/-- Like `cb`, but replay raises `InvalidFence`. -/
def cbErr : GameBoard := { cb with simulate := fun _ => .error .invalidFence }

/-- A run whose search returns a single legal-looking move instantly. -/
def demoRun : RunInput :=
  { searchResult := .returns (.list [.action (.move 0 (0, 1))]),
    initialMemory := 0, samples := [], elapsed := 0, boardMemoryMB := 0 }

/-- A solution mixing a non-move foreign element, two moves and a fence:
costs on `cb` are `(0,0) → (0,2)` (2 turns) and `(0,2) → (0,5)` (3 turns). -/
def demoSol : List PyVal :=
  [.other 7, .action (.move 0 (0, 2)), .action (.fence 0 (3, 3) true),
    .action (.move 0 (0, 5))]

/-- A flawless candidate record: no failure, finite positive outcome, zero
time and memory, per-run point 2 (game ended). -/
def perfectPerf : Performance :=
  { failure := none, outcome := 1, search := none, time := 0, memory := 0,
    point := 2 }

/-! Theorems. -/

theorem update_memory_le (peak : ℚ) (s : MemSample) :
    peak ≤ update_memory peak s := by
  cases s with
  | ok current => exact le_max_left _ _
  | error e => exact le_refl _

theorem le_finalPeak :
    ∀ (samples : List MemSample) (initialMemory : ℚ),
      initialMemory ≤ finalPeak initialMemory samples := by
  intro samples
  induction samples with
  | nil => intro m; exact le_refl _
  | cons s rest ih =>
      intro m
      exact le_trans (update_memory_le m s) (ih (update_memory m s))

/-- Claim C9: the shared peak-memory cell starts at the baseline sampled just
before the search and is only updated by `update_memory` (a maximum), so the
reported peak is ≥ the baseline and the process-derived component of the
memory measurement, peak minus baseline, is never negative. -/
theorem peak_ge_baseline (initialMemory : ℚ) (samples : List MemSample) :
    initialMemory ≤ finalPeak initialMemory samples
      ∧ 0 ≤ finalPeak initialMemory samples - initialMemory := by
  refine ⟨le_finalPeak samples initialMemory, ?_⟩
  have h := le_finalPeak samples initialMemory
  linarith

/-- Whether a solution element is a `MOVE` instance. -/
def PyVal.isMove : PyVal → Bool
  | .action (GameAction.move _ _) => true
  | _ => false

/-- Claim C7: the Turn Calculator returns +infinity for absent (`None`) and
empty solutions; on a non-empty solution it walks the elements in order with
a position cursor seeded, at the first move, from that move's player's pawn
location on the board, and returns the sum of the board-reported costs `c_i`
of the move actions; non-move elements neither add cost nor advance the
cursor. -/
theorem turn_calculator (board : GameBoard) :
    calculate_total_turns board .none = .ok ⊤
    ∧ calculate_total_turns board (.list []) = .ok ⊤
    ∧ (∀ l : List PyVal, l ≠ [] →
        calculate_total_turns board (.list l)
          = .ok ((moveCosts board Option.none l).sum : ℕ))
    ∧ (∀ (p : ℕ) (pos : Pos) (rest : List PyVal),
        moveCosts board Option.none (PyVal.action (GameAction.move p pos) :: rest)
          = board.get_move_turns (board.pawnLoc p) pos
              :: moveCosts board (some pos) rest)
    ∧ (∀ (cur : Option Pos) (acc : ℕ) (v : PyVal) (rest : List PyVal),
        v.isMove = false →
          calcTurns board cur acc (v :: rest) = calcTurns board cur acc rest
            ∧ moveCosts board cur (v :: rest) = moveCosts board cur rest) := by
  refine ⟨rfl, rfl, ?_, ?_, ?_⟩
  · intro l hl
    match l with
    | [] => exact absurd rfl hl
    | x :: xs =>
        show Except.ok ((calcTurns board Option.none 0 (x :: xs) : ℕ) : WithTop ℕ) = _
        rw [calcTurns_eq_sum, Nat.zero_add]
  · intro p pos rest
    simp [moveCosts]
  · intro cur acc v rest hv
    match v with
    | .action (GameAction.move p pos) => simp [PyVal.isMove] at hv
    | .action (GameAction.fence p pos h) => exact ⟨rfl, rfl⟩
    | .other t => exact ⟨rfl, rfl⟩

/-- Claim C7 witness: the Turn Calculator evaluated on `demoSol` over `cb`
(total 5, the sum of the two move costs). -/
theorem turn_calculator_witness :
    demoSol ≠ []
      ∧ calculate_total_turns cb (.list demoSol)
          = .ok ((moveCosts cb Option.none demoSol).sum : ℕ)
      ∧ (moveCosts cb Option.none demoSol).sum = 5 :=
  ⟨by decide, (turn_calculator cb).2.2.1 demoSol (by decide), by decide⟩

/-- Claim C3 counterexample: when the search call raises, the monitoring
thread is never joined — `monitor_thread.join(timeout=1.0)` sits inside the
`try` block after the search call, so the exception path runs only the
`finally` stop-flag assignment. The claim that the task is "signaled to stop
and joined" on every exit path is therefore false on the raising path. -/
theorem monitor_join_missing_cex :
    Event.joinMonitor 1 ∉ attemptTrace (SearchResult.raises "boom") := by
  decide

/-- Claim C3 (amended): on every exit path of the search attempt the monitor
is signaled to stop before the elapsed time is computed; the bounded
1-second join additionally happens before the elapsed-time computation, but
only on the path where the search call returns normally — when it raises,
the thread is signaled yet never joined. -/
theorem monitor_cleanup (sr : SearchResult) :
    precedes .signalStop .computeElapsed (attemptTrace sr) = true
    ∧ (∀ v : PyObj, sr = .returns v →
        precedes (.joinMonitor 1) .computeElapsed (attemptTrace sr) = true)
    ∧ (∀ msg : String, sr = .raises msg →
        Event.joinMonitor 1 ∉ attemptTrace sr) := by
  cases sr with
  | raises msg =>
      refine ⟨by simp [attemptTrace, precedes], ?_, ?_⟩
      · intro v hv; cases hv
      · intro m hm; simp [attemptTrace]
  | returns v =>
      refine ⟨by simp [attemptTrace, precedes], ?_, ?_⟩
      · intro w hw; simp [attemptTrace, precedes]
      · intro m hm; cases hm

/-- Claim C3 witness: on the normal-return path the join precedes the
elapsed-time computation. -/
theorem monitor_cleanup_witness :
    precedes (.joinMonitor 1) .computeElapsed
      (attemptTrace (SearchResult.returns .none)) = true :=
  (monitor_cleanup (SearchResult.returns .none)).2.1 .none rfl

/-- Claim C6: the final point is `1 + count(satisfied tiers)`, the four tiers
form a chain (Challenge ≤ Advanced ≤ Intermediate ≤ Basic, so a satisfied
tier implies all earlier ones and the point never skips a tier), and the
point always lies in the range 1–5. -/
theorem scorer_tiers (ta : Option Performance) (res : Performance) :
    (scorer ta res).point
        = 1 + ([basicStage ta res, intermediateStage ta res,
                advancedStage ta res, challengeStage ta res].count true)
    ∧ 1 ≤ (scorer ta res).point ∧ (scorer ta res).point ≤ 5
    ∧ challengeStage ta res ≤ advancedStage ta res
    ∧ advancedStage ta res ≤ intermediateStage ta res
    ∧ intermediateStage ta res ≤ basicStage ta res := by
  cases hb : basicStage ta res <;>
    cases hm : decide (res.memory ≤ 1) <;>
      cases ht : beatsTaTime ta res <;>
        cases hmem : beatsTaMemory ta res <;>
          simp [scorer, intermediateStage, advancedStage, challengeStage,
            List.count_cons, hb, hm, ht, hmem]

/-- Claim C1 (code bug): when `load_ta_agent` yields no agent, the entry
point does not produce a `Performance` at all — `agents` then lacks the
`'ta'` key, yet `for k in ['ta', 'agent']` performs `agents['ta']`
unconditionally, so a `KeyError` escapes before any run, contradicting the
code's own missing-TA handling (`if ta_agent is not None`, `if 'ta' in
results`) and the claim that every path terminates in a well-formed record. -/
theorem execute_noTa_keyError :
    execute_heuristic_search 0 0 cb
        { taAvailable := false, taRun := demoRun, agentRun := demoRun }
      = .error .keyError := rfl

/-- Claim C2 counterexample: with no reference run, the Advanced time
comparison and the Challenge memory comparison are initialized `False`, not
vacuously true, so even a flawless candidate (no failure, goal reached,
positive finite outcome, zero time and memory) is scored 3, not 5. -/
theorem scorer_noTa_cex :
    beatsTaTime Option.none perfectPerf = false
    ∧ beatsTaMemory Option.none perfectPerf = false
    ∧ (scorer Option.none perfectPerf).point = 3 := by
  decide

/-- Claim C2 (amended): with no reference run only the Basic outcome
comparison is vacuously satisfied; the Advanced time and Challenge memory
comparisons are unsatisfied, so a failure-free candidate that reaches the
goal progresses at most to point 3 (exactly 3 when its memory is within the
Intermediate bound).  Independently, the entry point as written never
reaches this single-agent scoring path: it raises `KeyError` when no TA
agent is loaded. -/
theorem scorer_noTa_cap (res : Performance) :
    beatsTaOutcome Option.none res = true
    ∧ beatsTaTime Option.none res = false
    ∧ beatsTaMemory Option.none res = false
    ∧ (scorer Option.none res).point ≤ 3
    ∧ (res.failure = Option.none → 1 < res.point → res.memory ≤ 1 →
        (scorer Option.none res).point = 3) := by
  have hadv : advancedStage Option.none res = false := by
    simp [advancedStage, beatsTaTime]
  have hch : challengeStage Option.none res = false := by
    simp [challengeStage, hadv]
  refine ⟨rfl, rfl, rfl, ?_, ?_⟩
  · cases hb : basicStage Option.none res <;>
      cases hi : intermediateStage Option.none res <;>
        simp [scorer, hadv, hch, hb, hi]
  · intro h1 h2 h3
    have hb : basicStage Option.none res = true := by
      simp [basicStage, beatsTaOutcome, h1, h2]
    have hi : intermediateStage Option.none res = true := by
      simp [intermediateStage, hb, h3]
    simp [scorer, hadv, hch, hb, hi]

/-- A failure-free goal-reaching candidate with small but nonzero cost. -/
def modestPerf : Performance :=
  { failure := none, outcome := 3, search := none, time := 7,
    memory := 1 / 2, point := 2 }

/-- Claim C2 witness: the amended cap evaluated on `modestPerf`. -/
theorem scorer_noTa_cap_witness :
    (modestPerf.failure = Option.none ∧ 1 < modestPerf.point
        ∧ modestPerf.memory ≤ 1)
      ∧ (scorer Option.none modestPerf).point = 3 :=
  ⟨⟨rfl, by decide, by norm_num [modestPerf]⟩,
    (scorer_noTa_cap modestPerf).2.2.2.2 rfl (by decide) (by norm_num [modestPerf])⟩

theorem runAgent_time_sc (timeLimit memoryLimit : ℚ) (board : GameBoard)
    (isCandidate : Bool) (inp : RunInput) (hc : isCandidate = true)
    (h1 : timeLimit < time_delta inp) (h2 : 0 < timeLimit) :
    runAgent timeLimit memoryLimit board isCandidate inp = .shortCircuit
      { failure := some (.timeLimitExceeded (time_delta inp)), outcome := ⊤,
        search := none, time := time_delta inp, memory := memory_usage inp,
        point := 1 } := by
  unfold runAgent
  rw [if_pos ⟨hc, h1, h2⟩]

theorem runAgent_mem_sc (timeLimit memoryLimit : ℚ) (board : GameBoard)
    (isCandidate : Bool) (inp : RunInput) (hc : isCandidate = true)
    (hn : ¬(timeLimit < time_delta inp ∧ 0 < timeLimit))
    (h1 : memoryLimit < memory_usage inp) (h2 : 0 < memoryLimit) :
    runAgent timeLimit memoryLimit board isCandidate inp = .shortCircuit
      { failure := some (.memoryLimitExceeded (memory_usage inp)), outcome := ⊤,
        search := none, time := time_delta inp, memory := memory_usage inp,
        point := 1 } := by
  unfold runAgent
  rw [if_neg (fun h => hn h.2), if_pos ⟨hc, h1, h2⟩]

theorem runAgent_sc_char (timeLimit memoryLimit : ℚ) (board : GameBoard)
    (isCandidate : Bool) (inp : RunInput) (p : Performance) :
    runAgent timeLimit memoryLimit board isCandidate inp = .shortCircuit p →
      isCandidate = true
      ∧ ((timeLimit < time_delta inp ∧ 0 < timeLimit)
          ∨ (memoryLimit < memory_usage inp ∧ 0 < memoryLimit))
      ∧ (p.failure = some (.timeLimitExceeded (time_delta inp))
          ∨ p.failure = some (.memoryLimitExceeded (memory_usage inp))) := by
  intro hp
  unfold runAgent at hp
  by_cases h1 : isCandidate = true ∧ timeLimit < time_delta inp ∧ 0 < timeLimit
  · rw [if_pos h1] at hp
    injection hp with h
    exact ⟨h1.1, Or.inl h1.2, Or.inl (by rw [← h])⟩
  · rw [if_neg h1] at hp
    by_cases h2 : isCandidate = true ∧ memoryLimit < memory_usage inp ∧ 0 < memoryLimit
    · rw [if_pos h2] at hp
      injection hp with h
      exact ⟨h2.1, Or.inr h2.2, Or.inr (by rw [← h])⟩
    · rw [if_neg h2] at hp
      exfalso
      cases hre : replayPhase board (attemptSolution inp.searchResult)
          (attemptFailure inp.searchResult) with
      | error e => rw [hre] at hp; simp at hp
      | ok t =>
          rw [hre] at hp
          obtain ⟨tt, isEnd, f2⟩ := t
          simp at hp

/-- Claim C4: the run short-circuits into a dedicated limit-failure
`Performance` — limit-failure text, outcome +infinity, point 1, skipping
replay/validation and tier scoring (the `shortCircuit` constructor is the
early `return`) — if and only if the run is the candidate's and a positive
configured limit is exceeded (elapsed time above the time limit, or measured
memory above the memory limit); a zero or negative limit enforces nothing. -/
theorem hard_limit_shortCircuit (timeLimit memoryLimit : ℚ) (board : GameBoard)
    (isCandidate : Bool) (inp : RunInput) :
    ((∃ p, runAgent timeLimit memoryLimit board isCandidate inp = .shortCircuit p)
      ↔ isCandidate = true
          ∧ ((timeLimit < time_delta inp ∧ 0 < timeLimit)
              ∨ (memoryLimit < memory_usage inp ∧ 0 < memoryLimit)))
    ∧ (isCandidate = true → timeLimit < time_delta inp → 0 < timeLimit →
        runAgent timeLimit memoryLimit board isCandidate inp = .shortCircuit
          { failure := some (.timeLimitExceeded (time_delta inp)), outcome := ⊤,
            search := none, time := time_delta inp, memory := memory_usage inp,
            point := 1 })
    ∧ (isCandidate = true → ¬(timeLimit < time_delta inp ∧ 0 < timeLimit) →
        memoryLimit < memory_usage inp → 0 < memoryLimit →
        runAgent timeLimit memoryLimit board isCandidate inp = .shortCircuit
          { failure := some (.memoryLimitExceeded (memory_usage inp)), outcome := ⊤,
            search := none, time := time_delta inp, memory := memory_usage inp,
            point := 1 }) := by
  refine ⟨⟨?_, ?_⟩, ?_, ?_⟩
  · rintro ⟨p, hp⟩
    obtain ⟨hc, hor, _⟩ := runAgent_sc_char _ _ _ _ _ _ hp
    exact ⟨hc, hor⟩
  · rintro ⟨hc, hor⟩
    by_cases ht : timeLimit < time_delta inp ∧ 0 < timeLimit
    · exact ⟨_, runAgent_time_sc _ _ _ _ _ hc ht.1 ht.2⟩
    · rcases hor with h | h
      · exact absurd h ht
      · exact ⟨_, runAgent_mem_sc _ _ _ _ _ hc ht h.1 h.2⟩
  · intro hc ht1 ht2
    exact runAgent_time_sc _ _ _ _ _ hc ht1 ht2
  · intro hc hn hm1 hm2
    exact runAgent_mem_sc _ _ _ _ _ hc hn hm1 hm2

/-- A candidate run that takes 7.2 seconds of wall clock. -/
def slowRun : RunInput :=
  { searchResult := .raises "slow", initialMemory := 0, samples := [],
    elapsed := 72 / 10, boardMemoryMB := 0 }

/-- Claim C4 witness: with a 5-second limit, the 7.2-second run
short-circuits into the time-limit `Performance`. -/
theorem hard_limit_shortCircuit_witness :
    runAgent 5 0 cb true slowRun = .shortCircuit
      { failure := some (.timeLimitExceeded (time_delta slowRun)), outcome := ⊤,
        search := none, time := time_delta slowRun, memory := memory_usage slowRun,
        point := 1 }
    ∧ time_delta slowRun = 36 / 5 :=
  ⟨(hard_limit_shortCircuit 5 0 cb true slowRun).2.1 rfl
      (by norm_num [time_delta, round2, slowRun]) (by norm_num),
    by norm_num [time_delta, round2, slowRun]⟩

/-- Claim C10: when the candidate's search raises and a positive limit is
also exceeded, the limit check runs after the catch: the returned
`Performance` carries the limit-exceeded message and discards the captured
search-failure traceback, while still reporting the measured time and
memory. -/
theorem limit_overrides_search_failure (timeLimit memoryLimit : ℚ)
    (board : GameBoard) (inp : RunInput) (msg : String)
    (hsr : inp.searchResult = .raises msg) :
    attemptFailure inp.searchResult = some (.searchError msg)
    ∧ (timeLimit < time_delta inp → 0 < timeLimit →
        runAgent timeLimit memoryLimit board true inp = .shortCircuit
          { failure := some (.timeLimitExceeded (time_delta inp)), outcome := ⊤,
            search := none, time := time_delta inp, memory := memory_usage inp,
            point := 1 })
    ∧ (¬(timeLimit < time_delta inp ∧ 0 < timeLimit) →
        memoryLimit < memory_usage inp → 0 < memoryLimit →
        runAgent timeLimit memoryLimit board true inp = .shortCircuit
          { failure := some (.memoryLimitExceeded (memory_usage inp)), outcome := ⊤,
            search := none, time := time_delta inp, memory := memory_usage inp,
            point := 1 })
    ∧ (∀ p, runAgent timeLimit memoryLimit board true inp = .shortCircuit p →
        p.failure ≠ some (.searchError msg)) := by
  refine ⟨by rw [hsr]; rfl, ?_, ?_, ?_⟩
  · intro h1 h2
    exact runAgent_time_sc _ _ _ _ _ rfl h1 h2
  · intro hn h1 h2
    exact runAgent_mem_sc _ _ _ _ _ rfl hn h1 h2
  · intro p hp
    obtain ⟨-, -, hf | hf⟩ := runAgent_sc_char _ _ _ _ _ _ hp <;>
      rw [hf] <;> simp

/-- Claim C10 witness: the 7.2-second raising run under a 5-second limit
reports the time-limit failure, not the captured traceback. -/
theorem limit_overrides_search_failure_witness :
    attemptFailure slowRun.searchResult = some (.searchError "slow")
    ∧ runAgent 5 0 cbOk true slowRun = .shortCircuit
        { failure := some (.timeLimitExceeded (time_delta slowRun)), outcome := ⊤,
          search := none, time := time_delta slowRun,
          memory := memory_usage slowRun, point := 1 } :=
  ⟨(limit_overrides_search_failure 5 0 cbOk slowRun "slow" rfl).1,
    (limit_overrides_search_failure 5 0 cbOk slowRun "slow" rfl).2.1
      (by norm_num [time_delta, round2, slowRun]) (by norm_num)⟩

/-- Claim C5: when replay of a well-formed solution raises an illegal-move
or illegal-fence error, the error is caught and recorded as the run's
failure text, the outcome stays the (finite) turn count computed by the Turn
Calculator before replay, and since the failure is non-null the Basic tier
fails, making the final point 1. -/
theorem rule_violation_run (timeLimit memoryLimit : ℚ) (board : GameBoard)
    (isCandidate : Bool) (inp : RunInput) (l : List PyVal) (e : BoardErr)
    (ta : Option Performance)
    (hsr : inp.searchResult = .returns (.list l))
    (hall : l.all PyVal.isAction = true)
    (hne : l ≠ [])
    (hsim : board.simulate l = .error e)
    (htl : timeLimit ≤ 0) (hml : memoryLimit ≤ 0) :
    runAgent timeLimit memoryLimit board isCandidate inp = .done
      { failure := some (.ruleViolation e),
        outcome := ((calcTurns board Option.none 0 l : ℕ) : WithTop ℕ),
        search := none, time := time_delta inp, memory := memory_usage inp,
        point := 1 }
    ∧ ((calcTurns board Option.none 0 l : ℕ) : WithTop ℕ) ≠ ⊤
    ∧ (scorer ta
        { failure := some (.ruleViolation e),
          outcome := ((calcTurns board Option.none 0 l : ℕ) : WithTop ℕ),
          search := none, time := time_delta inp, memory := memory_usage inp,
          point := 1 }).point = 1 := by
  have hn1 : ¬(isCandidate = true ∧ timeLimit < time_delta inp ∧ 0 < timeLimit) := by
    rintro ⟨-, -, h⟩; linarith
  have hn2 : ¬(isCandidate = true ∧ memoryLimit < memory_usage inp ∧ 0 < memoryLimit) := by
    rintro ⟨-, -, h⟩; linarith
  obtain ⟨x, xs, rfl⟩ : ∃ x xs, l = x :: xs := by
    cases l with
    | nil => exact absurd rfl hne
    | cons x xs => exact ⟨_, _, rfl⟩
  refine ⟨?_, WithTop.coe_ne_top, ?_⟩
  · unfold runAgent
    rw [hsr, if_neg hn1, if_neg hn2]
    simp [attemptSolution, attemptFailure, shapeFailure, hall, replayPhase,
      calculate_total_turns, hsim]
  · simp [scorer, basicStage, intermediateStage, advancedStage, challengeStage]

/-- A run returning one well-formed move. -/
def ruleRun : RunInput :=
  { searchResult := .returns (.list [.action (.move 0 (0, 2))]),
    initialMemory := 0, samples := [], elapsed := 0, boardMemoryMB := 0 }

/-- Claim C5 witness: replay on `cbErr` raises `InvalidFence`; the run keeps
the finite pre-replay turn count 2 as its outcome. -/
theorem rule_violation_run_witness :
    runAgent 0 0 cbErr true ruleRun = .done
      { failure := some (.ruleViolation BoardErr.invalidFence),
        outcome := ((calcTurns cbErr Option.none 0
            [PyVal.action (GameAction.move 0 (0, 2))] : ℕ) : WithTop ℕ),
        search := none, time := time_delta ruleRun,
        memory := memory_usage ruleRun, point := 1 }
    ∧ calcTurns cbErr Option.none 0 [PyVal.action (GameAction.move 0 (0, 2))] = 2 :=
  ⟨(rule_violation_run 0 0 cbErr true ruleRun _ BoardErr.invalidFence Option.none
      rfl (by decide) (by decide) rfl le_rfl le_rfl).1, by decide⟩

/-- A run whose search returns a list containing a non-Action element. -/
def badShapeRun : RunInput :=
  { searchResult := .returns (.list [.other 0]), initialMemory := 0,
    samples := [], elapsed := 0, boardMemoryMB := 0 }

/-- Claim C8 counterexample: when the shape assertion fails, `solution` does
NOT stay absent — the malformed value was already assigned — so the run
proceeds to replay it and its outcome is the computed turn count 0, not
+infinity, even though the failure text is recorded. -/
theorem shape_failure_outcome_cex :
    runAgent 0 0 cbOk true badShapeRun = .done
      { failure := some .assertNotActions, outcome := ((0 : ℕ) : WithTop ℕ),
        search := none, time := time_delta badShapeRun,
        memory := memory_usage badShapeRun, point := 1 }
    ∧ ((0 : ℕ) : WithTop ℕ) ≠ ⊤ := by
  refine ⟨?_, by simp⟩
  unfold runAgent
  rw [if_neg (fun h => lt_irrefl 0 h.2.2), if_neg (fun h => lt_irrefl 0 h.2.2)]
  simp [badShapeRun, attemptSolution, attemptFailure, shapeFailure, replayPhase,
    calculate_total_turns, calcTurns, cbOk, cb, PyVal.isAction]

/-- Claim C8 (amended): an error raised by the search call itself is captured
and, with the solution still absent, yields outcome +infinity and per-run
point 1 without aborting the evaluation; a shape-validation failure on a
returned list is likewise captured as failure text without aborting the
evaluation, but the malformed list is retained as the solution and replayed,
so the outcome is the turn count the Turn Calculator computes for it (not
+infinity). -/
theorem search_failure_run (timeLimit memoryLimit : ℚ) (board : GameBoard)
    (isCandidate : Bool) (inp : RunInput)
    (htl : timeLimit ≤ 0) (hml : memoryLimit ≤ 0) :
    (∀ msg : String, inp.searchResult = .raises msg →
      runAgent timeLimit memoryLimit board isCandidate inp = .done
        { failure := some (.searchError msg), outcome := ⊤, search := none,
          time := time_delta inp, memory := memory_usage inp, point := 1 })
    ∧ (∀ l : List PyVal, inp.searchResult = .returns (.list l) →
        l.all PyVal.isAction = false →
        ∃ p, runAgent timeLimit memoryLimit board isCandidate inp = .done p
          ∧ p.failure ≠ Option.none
          ∧ p.outcome = ((calcTurns board Option.none 0 l : ℕ) : WithTop ℕ)) := by
  have hn1 : ¬(isCandidate = true ∧ timeLimit < time_delta inp ∧ 0 < timeLimit) := by
    rintro ⟨-, -, h⟩; linarith
  have hn2 : ¬(isCandidate = true ∧ memoryLimit < memory_usage inp ∧ 0 < memoryLimit) := by
    rintro ⟨-, -, h⟩; linarith
  constructor
  · intro msg hsr
    unfold runAgent
    rw [hsr, if_neg hn1, if_neg hn2]
    simp [attemptSolution, attemptFailure, replayPhase]
  · intro l hsr hall
    obtain ⟨x, xs, rfl⟩ : ∃ x xs, l = x :: xs := by
      cases l with
      | nil => simp at hall
      | cons x xs => exact ⟨_, _, rfl⟩
    cases hs : board.simulate (x :: xs) with
    | ok b =>
        refine ⟨{ failure := some .assertNotActions,
                  outcome := ((calcTurns board Option.none 0 (x :: xs) : ℕ) : WithTop ℕ),
                  search := none, time := time_delta inp,
                  memory := memory_usage inp,
                  point := 1 + (if b then 1 else 0) }, ?_, by simp, by simp⟩
        unfold runAgent
        rw [hsr, if_neg hn1, if_neg hn2]
        simp [attemptSolution, attemptFailure, shapeFailure, hall, replayPhase,
          calculate_total_turns, hs]
    | error e =>
        refine ⟨{ failure := some (.ruleViolation e),
                  outcome := ((calcTurns board Option.none 0 (x :: xs) : ℕ) : WithTop ℕ),
                  search := none, time := time_delta inp,
                  memory := memory_usage inp, point := 1 }, ?_, by simp, by simp⟩
        unfold runAgent
        rw [hsr, if_neg hn1, if_neg hn2]
        simp [attemptSolution, attemptFailure, shapeFailure, hall, replayPhase,
          calculate_total_turns, hs]

/-- A run whose search raises. -/
def raisesRun : RunInput :=
  { searchResult := .raises "boom", initialMemory := 0, samples := [],
    elapsed := 0, boardMemoryMB := 0 }

/-- Claim C8 witness: the raising run yields the captured traceback, outcome
+infinity and point 1. -/
theorem search_failure_run_witness :
    runAgent 0 0 cbOk true raisesRun = .done
      { failure := some (.searchError "boom"), outcome := ⊤, search := none,
        time := time_delta raisesRun, memory := memory_usage raisesRun,
        point := 1 } :=
  (search_failure_run 0 0 cbOk true raisesRun le_rfl le_rfl).1 "boom" rfl

end Part1
